import Mathlib

/-!
Verification of the paste lifecycle manager of `caffeineee/pasties`.

The Rust module `src/model.rs` (the `PasteManager`) is embedded as pure
Lean functions.  Storage is a list of `Paste` records threaded through the
operations; the database-gateway functions that `model.rs` calls
(`database::retrieve_paste`, `insert_paste`, `update_paste`,
`delete_paste`) are not present in the source tree, so they are modelled
from the specification's Storage Gateway section.  The SHA-256 hash from
`utility.rs` is an external library call and enters as an explicit
function parameter `hash : String → String`; the clock, random id and
random-string sources enter through an `Env` record, one value per
operation (the spec's clock contract "current Unix time in seconds").
-/

/-- Byte length of a string, as Rust's `String::len` (UTF-8 byte count). -/
def byteLen (s : String) : Nat := s.utf8ByteSize

/-- Bytes of a string, as Rust's `str::bytes` iterator: the UTF-8
encoding of the character sequence (the payload of `String.toUTF8`). -/
def strBytes (s : String) : List UInt8 := s.data.flatMap String.utf8EncodeChar

/-- Predicate on one byte from `create_paste`'s URL validation:
`b.is_ascii_alphanumeric() || b == b'-' || b == b'_'`. -/
def urlSafeByte (b : UInt8) : Bool :=
  (48 ≤ b && b ≤ 57) || (65 ≤ b && b ≤ 90) || (97 ≤ b && b ≤ 122) || b == 45 || b == 95

/-- URL character-class check from `src/utility.rs::is_url_safe` and inlined
in `create_paste`: every byte is ASCII alphanumeric, `-` or `_`. -/
def is_url_safe (s : String) : Bool := (strBytes s).all urlSafeByte

/-- Content-length check inlined in `create_paste` and `update_paste`:
`paste.content.len() > 200_000 || paste.content.is_empty()`. -/
def contentInvalid (c : String) : Bool := byteLen c > 200000 || c.isEmpty

/-- Complete database representation of a paste (`src/model.rs::Paste`). -/
structure Paste where
  id             : Int
  url            : String
  password_hash  : String
  content        : String
  date_published : Int
  date_edited    : Int
deriving DecidableEq, Repr

/-- Partial representation used to update existing pastes
(`src/model.rs::ExistingPaste`). -/
structure ExistingPaste where
  url           : String
  password_hash : String
  content       : String
  date_edited   : Int
deriving DecidableEq, Repr

/-- User input for creating a paste (`src/model.rs::PasteCreate`). -/
structure PasteCreate where
  url      : String
  content  : String
  password : String
deriving DecidableEq, Repr

/-- User input for updating a paste (`src/model.rs::PasteUpdate`). -/
structure PasteUpdate where
  url      : String
  content  : String
  password : String
deriving DecidableEq, Repr

/-- User input for deleting a paste (`src/model.rs::PasteDelete`). -/
structure PasteDelete where
  url      : String
  password : String
deriving DecidableEq, Repr

/-- Client-facing view of a paste (`src/model.rs::PasteReturn`). -/
structure PasteReturn where
  url            : String
  content        : String
  date_published : Int
  date_edited    : Int
deriving DecidableEq, Repr

/-- Errors surfaced by the manager (`src/model.rs::PasteError`). -/
inductive PasteError where
  | NotFound
  | AlreadyExists
  | InvalidContent
  | InvalidUrl
  | PasswordIncorrect
  | Other (msg : String)
deriving DecidableEq, Repr

/-- Modelled from the spec: the Storage Gateway's error taxonomy
(`StorageError::NotFound`, `::Read`, `::Write`); the gateway code called
by `model.rs` is not in the source tree. -/
inductive StorageError where
  | NotFound
  | Read
  | Write
deriving DecidableEq, Repr

/-- Rendering of a storage error, standing for Rust's
`format!("\x7b:?\x7d", e)` applied to the underlying database error. -/
def storageErrorString : StorageError → String
  | .NotFound => "NotFound"
  | .Read => "Read"
  | .Write => "Write"

/-- The persistent table of pastes, in insertion order. -/
abbrev DbState := List Paste

/-- Per-operation environment: the clock reading, the generated id, the
random strings feeding URL generation and the default password, and fault
flags for the storage layer (a read fault makes `retrieve` fail with
`StorageError.Read`; a write fault makes the mutating gateway calls fail
with `StorageError.Write`). -/
structure Env where
  now          : Int
  freshId      : Int
  urlSeeds     : Nat → String
  passwordSeed : String
  readFault    : Bool
  writeFault   : Bool

/-- Boolean success test, Rust's `Result::is_ok`. -/
def exceptIsOk : Except ε α → Bool
  | .ok _ => true
  | .error _ => false

namespace database

/-- Modelled from the spec: `retrieve(url) -> Result<Paste, StorageError>`
"fails with `StorageError::NotFound` when no record matches; any other
store-level fault is `StorageError::Read`".  Missing from the source tree
(`src/database.rs` holds an older rusqlite iteration, without the
pool-based functions `model.rs` calls). -/
def retrieve_paste (env : Env) (db : DbState) (url : String) : Except StorageError Paste :=
  if env.readFault then .error .Read
  else
    match db.find? (fun p => p.url == url) with
    | some p => .ok p
    | none => .error .NotFound

/-- Modelled from the spec: `insert(paste)` "appends a new record. Fails
with `StorageError::Write` if the underlying store rejects the write". -/
def insert_paste (env : Env) (db : DbState) (p : Paste) : Except StorageError DbState :=
  if env.writeFault then .error .Write else .ok (db ++ [p])

/-- Modelled from the spec: `update(url, fields)` "replaces the mutable
fields (`url`, `content`, `password_hash`, `date_edited`) of the record
matched by `url`"; `id` and `date_published` are untouched; zero matching
rows silently succeed. -/
def update_paste (env : Env) (db : DbState) (url : String) (e : ExistingPaste) :
    Except StorageError DbState :=
  if env.writeFault then .error .Write
  else .ok (db.map (fun p =>
    if p.url == url then
      { p with url := e.url, password_hash := e.password_hash,
               content := e.content, date_edited := e.date_edited }
    else p))

/-- Modelled from the spec: `delete(url)` "removes the record; succeeds
even if zero rows matched". -/
def delete_paste (env : Env) (db : DbState) (url : String) : Except StorageError DbState :=
  if env.writeFault then .error .Write
  else .ok (db.filter (fun p => p.url != url))

end database

/-- SHA-256 of the seed string, as `src/utility.rs::random_string`: the
seed stands for the zero-padded hex rendering of a random `u32`, and the
function applies `hash_string` to it. -/
def random_string (hash : String → String) (seed : String) : String := hash seed

namespace PasteManager

/-- URL-generation loop of `create_paste` (`src/model.rs` lines 180-189):
take the first 10 characters of a fresh `random_string`, retry while a
paste with that URL exists.  `fuel` bounds the unrolling so the function
is total; the source loops without bound. -/
def genUrl (hash : String → String) (env : Env) (db : DbState) :
    Nat → Nat → Option String
  | 0, _ => none
  | fuel + 1, n =>
    let cand := (random_string hash (env.urlSeeds n)).take 10
    if exceptIsOk (database.retrieve_paste env db cand) then
      genUrl hash env db fuel (n + 1)
    else some cand

/-- Effective URL of a create request: the supplied one when non-empty,
otherwise a generated one. -/
def resolveUrl (hash : String → String) (env : Env) (fuel : Nat) (db : DbState)
    (paste : PasteCreate) : Option String :=
  if paste.url.isEmpty then genUrl hash env db fuel 0 else some paste.url

/-- Embedding of `PasteManager::create_paste` (`src/model.rs` lines
175-228), in source order: resolve a default URL, reject an existing URL,
resolve a default password, validate URL length then character class,
validate content, build the record and insert it.  Returns the result
paired with the storage state after the call. -/
def create_paste (hash : String → String) (env : Env) (fuel : Nat) (db : DbState)
    (paste : PasteCreate) : Except PasteError (String × String) × DbState :=
  match resolveUrl hash env fuel db paste with
  | none => (.error (.Other "url generation exhausted its fuel"), db)
  | some url =>
    if exceptIsOk (database.retrieve_paste env db url) then
      (.error .AlreadyExists, db)
    else
      let password :=
        if paste.password.isEmpty then (random_string hash env.passwordSeed).take 10
        else paste.password
      if byteLen url > 250 then (.error .InvalidUrl, db)
      else if !is_url_safe url then (.error .InvalidUrl, db)
      else if contentInvalid paste.content then (.error .InvalidContent, db)
      else
        let paste_to_insert : Paste :=
          { id := env.freshId
            url := url
            password_hash := hash password
            content := paste.content
            date_published := env.now
            date_edited := env.now }
        match database.insert_paste env db paste_to_insert with
        | .ok db2 => (.ok (url, password), db2)
        | .error e => (.error (.Other (storageErrorString e)), db)

/-- Embedding of `PasteManager::update_paste` (`src/model.rs` lines
236-257): retrieve by URL (any retrieval error becomes `NotFound`), check
the password hash, validate content, then write the updated fields keyed
by the same URL. -/
def update_paste (hash : String → String) (env : Env) (db : DbState)
    (paste : PasteUpdate) : Except PasteError Unit × DbState :=
  match database.retrieve_paste env db paste.url with
  | .error _ => (.error .NotFound, db)
  | .ok original_paste =>
    if hash paste.password ≠ original_paste.password_hash then
      (.error .PasswordIncorrect, db)
    else if contentInvalid paste.content then (.error .InvalidContent, db)
    else
      let updated_paste : ExistingPaste :=
        { url := paste.url
          password_hash := hash paste.password
          content := paste.content
          date_edited := env.now }
      match database.update_paste env db paste.url updated_paste with
      | .ok db2 => (.ok (), db2)
      | .error e => (.error (.Other (storageErrorString e)), db)

/-- Embedding of `PasteManager::get_paste_by_url` (`src/model.rs` lines
265-276): look up by URL and project the client-facing view; any
retrieval error becomes `NotFound`. -/
def get_paste_by_url (env : Env) (db : DbState) (paste_url : String) :
    Except PasteError PasteReturn :=
  match database.retrieve_paste env db paste_url with
  | .ok p =>
    .ok { url := p.url, content := p.content,
          date_published := p.date_published, date_edited := p.date_edited }
  | .error _ => .error .NotFound

/-- Embedding of `PasteManager::delete_paste` (`src/model.rs` lines
284-297): retrieve by URL (any retrieval error becomes `NotFound`), check
the password hash, then delete by URL. -/
def delete_paste (hash : String → String) (env : Env) (db : DbState)
    (paste_to_delete : PasteDelete) : Except PasteError Unit × DbState :=
  match database.retrieve_paste env db paste_to_delete.url with
  | .error _ => (.error .NotFound, db)
  | .ok existing_paste =>
    if hash paste_to_delete.password ≠ existing_paste.password_hash then
      (.error .PasswordIncorrect, db)
    else
      match database.delete_paste env db paste_to_delete.url with
      | .ok db2 => (.ok (), db2)
      | .error e => (.error (.Other (storageErrorString e)), db)

end PasteManager

/-- Concrete stand-in hash for witnesses: prepends a marker character. -/
def testHash (s : String) : String := String.append "h" s

/-- Default fault-free environment for witnesses. -/
def defaultEnv : Env :=
  { now := 100, freshId := 7, urlSeeds := fun _ => "00000000",
    passwordSeed := "00000001", readFault := false, writeFault := false }

deriving instance DecidableEq for Except

/-- Helper: the byte-size accumulator agrees with the UTF-8 byte list. -/
theorem utf8Len_go_eq (cs : List Char) :
    String.utf8ByteSize.go cs = (cs.flatMap String.utf8EncodeChar).length := by
  induction cs with
  | nil => rfl
  | cons c cs ih =>
    show String.utf8ByteSize.go cs + c.utf8Size = _
    rw [List.flatMap_cons, List.length_append, ih, String.length_utf8EncodeChar]
    omega

/-- Byte length agrees with the length of the byte list. -/
theorem byteLen_eq_strBytes_length (s : String) : byteLen s = (strBytes s).length := by
  cases s with
  | mk cs => exact utf8Len_go_eq cs

/-- Effective password of a create request: the supplied one when
non-empty, otherwise the generated default (`src/model.rs` lines
198-200). -/
def effectivePassword (hash : String → String) (env : Env) (paste : PasteCreate) : String :=
  if paste.password.isEmpty then (random_string hash env.passwordSeed).take 10
  else paste.password

/-- A string is empty exactly when its byte length is zero. -/
theorem isEmpty_iff_byteLen (s : String) : s.isEmpty = true ↔ byteLen s = 0 := by
  rw [String.isEmpty_iff]
  constructor
  · rintro rfl; rfl
  · intro h
    cases s with
    | mk cs =>
      cases cs with
      | nil => rfl
      | cons c cs =>
        exfalso
        have h1 : 0 < c.utf8Size := Char.utf8Size_pos c
        simp [byteLen, String.utf8ByteSize, String.utf8ByteSize.go] at h
        omega

/-- Helper: on a fault-free environment, a create request with a
non-empty, unused, length- and character-valid url and valid content
inserts the new record at the end of the table and returns the effective
url and password. -/
theorem create_paste_valid_eq
    (hash : String → String) (env : Env) (fuel : Nat) (db : DbState) (p : PasteCreate)
    (hrf : env.readFault = false) (hwf : env.writeFault = false)
    (hurl : p.url.isEmpty = false)
    (hfresh : db.find? (fun q => q.url == p.url) = none)
    (hlen : byteLen p.url ≤ 250)
    (hsafe : is_url_safe p.url = true)
    (hcinv : contentInvalid p.content = false) :
    PasteManager.create_paste hash env fuel db p =
      (.ok (p.url, effectivePassword hash env p),
       db ++ [Paste.mk env.freshId p.url (hash (effectivePassword hash env p))
         p.content env.now env.now]) := by
  have hret : database.retrieve_paste env db p.url = .error .NotFound := by
    simp [database.retrieve_paste, hrf, hfresh]
  simp [PasteManager.create_paste, PasteManager.resolveUrl, hurl, hret, exceptIsOk,
    hcinv, database.insert_paste, hwf, Nat.not_lt.mpr hlen, hsafe, effectivePassword]

/-- C1: for every input whose url, content and password are valid (url
non-empty, url-safe, at most 250 bytes, not already stored; content
1-200,000 bytes), `create_paste` succeeds and returns the effective url
together with the plaintext password (the supplied one, or the generated
default), and a subsequent `get_paste_by_url` of that url returns a view
whose content equals the created content and whose timestamps satisfy
`date_published = date_edited`. -/
theorem create_then_retrieve_roundtrip
    (hash : String → String) (env : Env) (fuel : Nat) (db : DbState) (p : PasteCreate)
    (hrf : env.readFault = false) (hwf : env.writeFault = false)
    (hurl : p.url.isEmpty = false)
    (hfresh : db.find? (fun q => q.url == p.url) = none)
    (hlen : byteLen p.url ≤ 250)
    (hsafe : is_url_safe p.url = true)
    (hc0 : p.content.isEmpty = false)
    (hc2 : byteLen p.content ≤ 200000) :
    ∃ db2,
      PasteManager.create_paste hash env fuel db p =
        (.ok (p.url, effectivePassword hash env p), db2) ∧
      ∃ v, PasteManager.get_paste_by_url env db2 p.url = .ok v ∧
        v.content = p.content ∧ v.date_published = v.date_edited := by
  have hcinv : contentInvalid p.content = false := by
    simp [contentInvalid, hc0]
    omega
  have hcreate := create_paste_valid_eq hash env fuel db p hrf hwf hurl hfresh hlen hsafe hcinv
  refine ⟨_, hcreate, PasteReturn.mk p.url p.content env.now env.now, ?_, rfl, rfl⟩
  simp [PasteManager.get_paste_by_url, database.retrieve_paste, hrf,
    List.find?_append, hfresh]

/-- Witness for C1 at a concrete input. -/
theorem create_then_retrieve_roundtrip_witness :
    ∃ db2,
      PasteManager.create_paste testHash defaultEnv 1 []
          (PasteCreate.mk "abc" "hello" "p") =
        (.ok ("abc", effectivePassword testHash defaultEnv (PasteCreate.mk "abc" "hello" "p")),
         db2) ∧
      ∃ v, PasteManager.get_paste_by_url defaultEnv db2 "abc" = .ok v ∧
        v.content = "hello" ∧ v.date_published = v.date_edited :=
  create_then_retrieve_roundtrip testHash defaultEnv 1 [] (PasteCreate.mk "abc" "hello" "p")
    rfl rfl (by decide) rfl (by decide) (by decide) (by decide) (by decide)

/-- C2: an update or delete request naming a stored paste but presenting
a password whose hash differs from the stored `password_hash` fails with
`PasswordIncorrect`, leaves the storage state unchanged, and a following
retrieve of the same url still succeeds with the same view. -/
theorem wrong_password_rejected
    (hash : String → String) (env : Env) (db : DbState)
    (hrf : env.readFault = false) :
    (∀ (u : PasteUpdate) (rec : Paste), db.find? (fun q => q.url == u.url) = some rec →
       hash u.password ≠ rec.password_hash →
       PasteManager.update_paste hash env db u = (.error .PasswordIncorrect, db) ∧
       PasteManager.get_paste_by_url env db u.url =
         .ok (PasteReturn.mk rec.url rec.content rec.date_published rec.date_edited)) ∧
    (∀ (d : PasteDelete) (rec : Paste), db.find? (fun q => q.url == d.url) = some rec →
       hash d.password ≠ rec.password_hash →
       PasteManager.delete_paste hash env db d = (.error .PasswordIncorrect, db) ∧
       PasteManager.get_paste_by_url env db d.url =
         .ok (PasteReturn.mk rec.url rec.content rec.date_published rec.date_edited)) := by
  constructor
  · intro u rec hfind hwrong
    constructor
    · simp [PasteManager.update_paste, database.retrieve_paste, hrf, hfind, hwrong]
    · simp [PasteManager.get_paste_by_url, database.retrieve_paste, hrf, hfind]
  · intro d rec hfind hwrong
    constructor
    · simp [PasteManager.delete_paste, database.retrieve_paste, hrf, hfind, hwrong]
    · simp [PasteManager.get_paste_by_url, database.retrieve_paste, hrf, hfind]

/-- Witness for C2 at a concrete input: a stored paste with password hash
`testHash "right"` and a request presenting password `"wrong"`. -/
theorem wrong_password_rejected_witness :
    PasteManager.delete_paste testHash defaultEnv
        [Paste.mk 7 "abc" (testHash "right") "hello" 100 100]
        (PasteDelete.mk "abc" "wrong") =
      (.error .PasswordIncorrect, [Paste.mk 7 "abc" (testHash "right") "hello" 100 100]) ∧
    PasteManager.get_paste_by_url defaultEnv
        [Paste.mk 7 "abc" (testHash "right") "hello" 100 100] "abc" =
      .ok (PasteReturn.mk "abc" "hello" 100 100) :=
  (wrong_password_rejected testHash defaultEnv
      [Paste.mk 7 "abc" (testHash "right") "hello" 100 100] rfl).2
    (PasteDelete.mk "abc" "wrong") (Paste.mk 7 "abc" (testHash "right") "hello" 100 100)
    (by decide) (by decide)

/-- C5: a create request whose effective url (the supplied one, or the
generated one) already names a stored paste fails with `AlreadyExists`
and leaves the storage state exactly as it was. -/
theorem create_already_exists
    (hash : String → String) (env : Env) (fuel : Nat) (db : DbState) (p : PasteCreate)
    (u : String) (rec : Paste)
    (hrf : env.readFault = false)
    (hres : PasteManager.resolveUrl hash env fuel db p = some u)
    (hfind : db.find? (fun q => q.url == u) = some rec) :
    PasteManager.create_paste hash env fuel db p = (.error .AlreadyExists, db) := by
  simp [PasteManager.create_paste, hres, database.retrieve_paste, hrf, hfind, exceptIsOk]

/-- Witness for C5 at a concrete input. -/
theorem create_already_exists_witness :
    PasteManager.create_paste testHash defaultEnv 1
        [Paste.mk 7 "abc" (testHash "p") "hello" 100 100]
        (PasteCreate.mk "abc" "bye" "q") =
      (.error .AlreadyExists, [Paste.mk 7 "abc" (testHash "p") "hello" 100 100]) :=
  create_already_exists testHash defaultEnv 1
    [Paste.mk 7 "abc" (testHash "p") "hello" 100 100]
    (PasteCreate.mk "abc" "bye" "q") "abc" (Paste.mk 7 "abc" (testHash "p") "hello" 100 100)
    rfl (by decide) (by decide)

/-- C8: every successful retrieve returns exactly the view consisting of
the stored record's `url`, `content`, `date_published` and `date_edited`;
a `PasteReturn` has no other fields, so the record's `password_hash` and
`id` appear nowhere in the returned value. -/
theorem retrieve_exposes_only_view
    (env : Env) (db : DbState) (url : String) (v : PasteReturn)
    (h : PasteManager.get_paste_by_url env db url = .ok v) :
    ∃ p, database.retrieve_paste env db url = .ok p ∧
      v = PasteReturn.mk p.url p.content p.date_published p.date_edited := by
  unfold PasteManager.get_paste_by_url at h
  cases hr : database.retrieve_paste env db url with
  | ok p =>
    rw [hr] at h
    exact ⟨p, rfl, by cases h; rfl⟩
  | error e =>
    rw [hr] at h
    cases h

/-- Witness for C8 at a concrete input. -/
theorem retrieve_exposes_only_view_witness :
    ∃ p, database.retrieve_paste defaultEnv
        [Paste.mk 7 "abc" (testHash "p") "hello" 100 100] "abc" = .ok p ∧
      PasteReturn.mk "abc" "hello" 100 100 =
        PasteReturn.mk p.url p.content p.date_published p.date_edited :=
  retrieve_exposes_only_view defaultEnv
    [Paste.mk 7 "abc" (testHash "p") "hello" 100 100] "abc"
    (PasteReturn.mk "abc" "hello" 100 100) (by decide)

/-- C3 counterexample: `create_paste` checks existence before validating
the url, so with a record whose url `"abc def"` already stored, a create
request for that same invalid url fails with `AlreadyExists`, not
`InvalidUrl` — the claim's "never AlreadyExists, regardless of the
current storage contents" is false. -/
theorem create_invalid_url_counterexample :
    is_url_safe "abc def" = false ∧
    PasteManager.create_paste testHash defaultEnv 1
        [Paste.mk 7 "abc def" (testHash "p") "hello" 100 100]
        (PasteCreate.mk "abc def" "x" "p") =
      (.error .AlreadyExists, [Paste.mk 7 "abc def" (testHash "p") "hello" 100 100]) ∧
    (Except.error PasteError.AlreadyExists : Except PasteError (String × String)) ≠
      .error .InvalidUrl :=
  ⟨by decide, by decide, by decide⟩

/-- C3 amended: the existence check runs before url validation, so a
supplied url containing a byte outside the allowed class fails with
`InvalidUrl` provided no stored paste carries that url; a stored paste
with that exact url yields `AlreadyExists` instead. -/
theorem create_invalid_url_not_stored
    (hash : String → String) (env : Env) (fuel : Nat) (db : DbState) (p : PasteCreate)
    (hrf : env.readFault = false)
    (hurl : p.url.isEmpty = false)
    (hfresh : db.find? (fun q => q.url == p.url) = none)
    (hbad : is_url_safe p.url = false) :
    PasteManager.create_paste hash env fuel db p = (.error .InvalidUrl, db) := by
  simp [PasteManager.create_paste, PasteManager.resolveUrl, hurl,
    database.retrieve_paste, hrf, hfresh, exceptIsOk, hbad]

/-- Witness for the amended C3 at a concrete input. -/
theorem create_invalid_url_not_stored_witness :
    PasteManager.create_paste testHash defaultEnv 1 [] (PasteCreate.mk "abc def" "x" "p") =
      (.error .InvalidUrl, []) :=
  create_invalid_url_not_stored testHash defaultEnv 1 [] (PasteCreate.mk "abc def" "x" "p")
    rfl (by decide) rfl (by decide)

/-- Password of 251 bytes, used to exercise the absent length check. -/
def bigPassword : String := String.mk (List.replicate 251 'a')

set_option maxRecDepth 4000 in
/-- C4 counterexample: `create_paste` never validates the password
length — a create request with a 251-byte password succeeds instead of
failing (the manager's error type has no `InvalidPassword` variant at
all). -/
theorem create_long_password_counterexample :
    byteLen bigPassword = 251 ∧
    (PasteManager.create_paste testHash defaultEnv 1 []
      (PasteCreate.mk "abc" "x" bigPassword)).1 = .ok ("abc", bigPassword) :=
  ⟨by decide, by decide⟩

/-- C4 amended: create performs no password-length validation; any
non-empty supplied password, of any byte length, is accepted whenever
the url and content are valid. -/
theorem create_accepts_any_password
    (hash : String → String) (env : Env) (fuel : Nat) (db : DbState) (p : PasteCreate)
    (hrf : env.readFault = false) (hwf : env.writeFault = false)
    (hurl : p.url.isEmpty = false)
    (hfresh : db.find? (fun q => q.url == p.url) = none)
    (hlen : byteLen p.url ≤ 250)
    (hsafe : is_url_safe p.url = true)
    (hc0 : p.content.isEmpty = false)
    (hc2 : byteLen p.content ≤ 200000)
    (hpw : p.password.isEmpty = false) :
    ∃ db2, PasteManager.create_paste hash env fuel db p = (.ok (p.url, p.password), db2) := by
  have hcinv : contentInvalid p.content = false := by
    simp [contentInvalid, hc0]
    omega
  have hcreate := create_paste_valid_eq hash env fuel db p hrf hwf hurl hfresh hlen hsafe hcinv
  rw [show effectivePassword hash env p = p.password by simp [effectivePassword, hpw]] at hcreate
  exact ⟨_, hcreate⟩

set_option maxRecDepth 4000 in
/-- Witness for the amended C4 at the 251-byte password. -/
theorem create_accepts_any_password_witness :
    ∃ db2, PasteManager.create_paste testHash defaultEnv 1 []
        (PasteCreate.mk "abc" "x" bigPassword) = (.ok ("abc", bigPassword), db2) :=
  create_accepts_any_password testHash defaultEnv 1 [] (PasteCreate.mk "abc" "x" bigPassword)
    rfl rfl (by decide) rfl (by decide) (by decide) (by decide) (by decide) (by decide)

/-- Helper: the content check rejects exactly the empty and the
over-200,000-byte contents. -/
theorem contentInvalid_iff (c : String) :
    contentInvalid c = true ↔ (byteLen c = 0 ∨ byteLen c > 200000) := by
  simp [contentInvalid, isEmpty_iff_byteLen]
  omega

/-- C6: create and update fail with `InvalidContent` exactly when the
content has byte length 0 or greater than 200,000 (here under the
hypotheses that the earlier checks of each operation pass); the boundary
lengths, 1 through 200,000 bytes, all pass the content check. -/
theorem invalid_content_characterization
    (hash : String → String) (env : Env) (fuel : Nat) (db : DbState)
    (p : PasteCreate) (u : PasteUpdate) (rec : Paste)
    (hrf : env.readFault = false)
    (hurl : p.url.isEmpty = false)
    (hfresh : db.find? (fun q => q.url == p.url) = none)
    (hlen : byteLen p.url ≤ 250)
    (hsafe : is_url_safe p.url = true)
    (hfindu : db.find? (fun q => q.url == u.url) = some rec)
    (hpw : hash u.password = rec.password_hash) :
    ((PasteManager.create_paste hash env fuel db p).1 = .error .InvalidContent ↔
      (byteLen p.content = 0 ∨ byteLen p.content > 200000)) ∧
    ((PasteManager.update_paste hash env db u).1 = .error .InvalidContent ↔
      (byteLen u.content = 0 ∨ byteLen u.content > 200000)) ∧
    (∀ c : String, 1 ≤ byteLen c → byteLen c ≤ 200000 → contentInvalid c = false) := by
  have hretp : database.retrieve_paste env db p.url = .error .NotFound := by
    simp [database.retrieve_paste, hrf, hfresh]
  have hretu : database.retrieve_paste env db u.url = .ok rec := by
    simp [database.retrieve_paste, hrf, hfindu]
  refine ⟨?_, ?_, ?_⟩
  · cases hc : contentInvalid p.content with
    | true =>
      simp [PasteManager.create_paste, PasteManager.resolveUrl, hurl, hretp, exceptIsOk,
        hc, Nat.not_lt.mpr hlen, hsafe, (contentInvalid_iff p.content).mp hc]
    | false =>
      have hnot : ¬ (byteLen p.content = 0 ∨ byteLen p.content > 200000) := by
        rw [← contentInvalid_iff]
        simp [hc]
      cases hwf : env.writeFault with
      | true =>
        simp [PasteManager.create_paste, PasteManager.resolveUrl, hurl, hretp, exceptIsOk,
          hc, Nat.not_lt.mpr hlen, hsafe, database.insert_paste, hwf, hnot]
      | false =>
        simp [PasteManager.create_paste, PasteManager.resolveUrl, hurl, hretp, exceptIsOk,
          hc, Nat.not_lt.mpr hlen, hsafe, database.insert_paste, hwf, hnot]
  · cases hc : contentInvalid u.content with
    | true =>
      simp [PasteManager.update_paste, hretu, hpw, hc, (contentInvalid_iff u.content).mp hc]
    | false =>
      have hnot : ¬ (byteLen u.content = 0 ∨ byteLen u.content > 200000) := by
        rw [← contentInvalid_iff]
        simp [hc]
      cases hwf : env.writeFault with
      | true =>
        simp [PasteManager.update_paste, hretu, hpw, hc, database.update_paste, hwf, hnot]
      | false =>
        simp [PasteManager.update_paste, hretu, hpw, hc, database.update_paste, hwf, hnot]
  · intro c h1 h2
    have := contentInvalid_iff c
    cases hcc : contentInvalid c with
    | false => rfl
    | true =>
      exfalso
      rcases this.mp hcc with h | h <;> omega

/-- Witness for C6: an empty content is rejected by both operations, and
the one-byte content passes the check. -/
theorem invalid_content_characterization_witness :
    ((PasteManager.create_paste testHash defaultEnv 1
        [Paste.mk 7 "abc" (testHash "p") "hello" 100 100]
        (PasteCreate.mk "new" "" "p")).1 = .error .InvalidContent ↔
      (byteLen "" = 0 ∨ byteLen "" > 200000)) ∧
    ((PasteManager.update_paste testHash defaultEnv
        [Paste.mk 7 "abc" (testHash "p") "hello" 100 100]
        (PasteUpdate.mk "abc" "" "p")).1 = .error .InvalidContent ↔
      (byteLen "" = 0 ∨ byteLen "" > 200000)) ∧
    contentInvalid "x" = false :=
  ⟨(invalid_content_characterization testHash defaultEnv 1
      [Paste.mk 7 "abc" (testHash "p") "hello" 100 100]
      (PasteCreate.mk "new" "" "p") (PasteUpdate.mk "abc" "" "p")
      (Paste.mk 7 "abc" (testHash "p") "hello" 100 100)
      rfl (by decide) (by decide) (by decide) (by decide) (by decide) (by decide)).1,
   (invalid_content_characterization testHash defaultEnv 1
      [Paste.mk 7 "abc" (testHash "p") "hello" 100 100]
      (PasteCreate.mk "new" "" "p") (PasteUpdate.mk "abc" "" "p")
      (Paste.mk 7 "abc" (testHash "p") "hello" 100 100)
      rfl (by decide) (by decide) (by decide) (by decide) (by decide) (by decide)).2.1,
   (invalid_content_characterization testHash defaultEnv 1
      [Paste.mk 7 "abc" (testHash "p") "hello" 100 100]
      (PasteCreate.mk "new" "" "p") (PasteUpdate.mk "abc" "" "p")
      (Paste.mk 7 "abc" (testHash "p") "hello" 100 100)
      rfl (by decide) (by decide) (by decide) (by decide) (by decide) (by decide)).2.2
    "x" (by decide) (by decide)⟩

/-- Environment on which every gateway read faults. -/
def faultEnv : Env := { defaultEnv with readFault := true }

/-- Environment on which every gateway write faults. -/
def writeFaultEnv : Env := { defaultEnv with writeFault := true }

/-- C7 counterexample: with the record present but the retrieve step
failing with a read fault, both update and delete report `NotFound` —
not the claimed Storage/`Other` variant — so `NotFound` is not returned
"exactly when no stored record matches". -/
theorem storage_fault_counterexample :
    (List.find? (fun q => q.url == "abc")
      [Paste.mk 7 "abc" (testHash "p") "hello" 100 100]).isSome = true ∧
    database.retrieve_paste faultEnv
        [Paste.mk 7 "abc" (testHash "p") "hello" 100 100] "abc" = .error .Read ∧
    PasteManager.delete_paste testHash faultEnv
        [Paste.mk 7 "abc" (testHash "p") "hello" 100 100] (PasteDelete.mk "abc" "p") =
      (.error .NotFound, [Paste.mk 7 "abc" (testHash "p") "hello" 100 100]) ∧
    PasteManager.update_paste testHash faultEnv
        [Paste.mk 7 "abc" (testHash "p") "hello" 100 100] (PasteUpdate.mk "abc" "x" "p") =
      (.error .NotFound, [Paste.mk 7 "abc" (testHash "p") "hello" 100 100]) :=
  ⟨by decide, by decide, by decide, by decide⟩

/-- C7 amended: on a fault-free read, update and delete fail `NotFound`
exactly when no stored record matches the url; but a retrieve-step read
fault is also mapped to `NotFound` (the manager collapses every retrieve
error), while only faults in the subsequent write surface as the
`Other` (storage) variant. -/
theorem notfound_and_fault_mapping
    (hash : String → String) (env : Env) (db : DbState)
    (u : PasteUpdate) (d : PasteDelete) :
    (env.readFault = false →
      (((PasteManager.update_paste hash env db u).1 = .error .NotFound) ↔
        db.find? (fun q => q.url == u.url) = none) ∧
      (((PasteManager.delete_paste hash env db d).1 = .error .NotFound) ↔
        db.find? (fun q => q.url == d.url) = none)) ∧
    (env.readFault = true →
      (PasteManager.update_paste hash env db u).1 = .error .NotFound ∧
      (PasteManager.delete_paste hash env db d).1 = .error .NotFound) ∧
    (∀ rec : Paste, env.readFault = false → env.writeFault = true →
      db.find? (fun q => q.url == u.url) = some rec →
      hash u.password = rec.password_hash → contentInvalid u.content = false →
      (PasteManager.update_paste hash env db u).1 = .error (.Other "Write")) ∧
    (∀ rec : Paste, env.readFault = false → env.writeFault = true →
      db.find? (fun q => q.url == d.url) = some rec →
      hash d.password = rec.password_hash →
      (PasteManager.delete_paste hash env db d).1 = .error (.Other "Write")) := by
  refine ⟨?_, ?_, ?_, ?_⟩
  · intro hrf
    constructor
    · cases hf : db.find? (fun q => q.url == u.url) with
      | none => simp [PasteManager.update_paste, database.retrieve_paste, hrf, hf]
      | some rec =>
        simp only [PasteManager.update_paste, database.retrieve_paste, hrf, hf]
        simp only [Bool.false_eq_true, if_false]
        constructor
        · intro h
          by_cases hpw : hash u.password ≠ rec.password_hash
          · simp [hpw] at h
          · simp [hpw] at h
            cases hc : contentInvalid u.content with
            | true => simp [hc] at h
            | false =>
              simp [hc] at h
              cases hwf : env.writeFault with
              | true => simp [database.update_paste, hwf] at h
              | false => simp [database.update_paste, hwf] at h
        · intro h
          cases h
    · cases hf : db.find? (fun q => q.url == d.url) with
      | none => simp [PasteManager.delete_paste, database.retrieve_paste, hrf, hf]
      | some rec =>
        simp only [PasteManager.delete_paste, database.retrieve_paste, hrf, hf]
        simp only [Bool.false_eq_true, if_false]
        constructor
        · intro h
          by_cases hpw : hash d.password ≠ rec.password_hash
          · simp [hpw] at h
          · simp [hpw] at h
            cases hwf : env.writeFault with
            | true => simp [database.delete_paste, hwf] at h
            | false => simp [database.delete_paste, hwf] at h
        · intro h
          cases h
  · intro hrf
    constructor
    · simp [PasteManager.update_paste, database.retrieve_paste, hrf]
    · simp [PasteManager.delete_paste, database.retrieve_paste, hrf]
  · intro rec hrf hwf hf hpw hc
    simp [PasteManager.update_paste, database.retrieve_paste, hrf, hf, hpw, hc,
      database.update_paste, hwf, storageErrorString]
  · intro rec hrf hwf hf hpw
    simp [PasteManager.delete_paste, database.retrieve_paste, hrf, hf, hpw,
      database.delete_paste, hwf, storageErrorString]

/-- Witness for the amended C7: a read fault maps to `NotFound`; a write
fault during delete maps to `Other "Write"`; on an empty fault-free
store, update reports `NotFound`. -/
theorem notfound_and_fault_mapping_witness :
    (PasteManager.update_paste testHash faultEnv
      [Paste.mk 7 "abc" (testHash "p") "hello" 100 100]
      (PasteUpdate.mk "abc" "x" "p")).1 = .error .NotFound ∧
    (PasteManager.delete_paste testHash writeFaultEnv
      [Paste.mk 7 "abc" (testHash "p") "hello" 100 100]
      (PasteDelete.mk "abc" "p")).1 = .error (.Other "Write") ∧
    (PasteManager.update_paste testHash defaultEnv []
      (PasteUpdate.mk "abc" "x" "p")).1 = .error .NotFound :=
  ⟨((notfound_and_fault_mapping testHash faultEnv
      [Paste.mk 7 "abc" (testHash "p") "hello" 100 100]
      (PasteUpdate.mk "abc" "x" "p") (PasteDelete.mk "abc" "p")).2.1 rfl).1,
   (notfound_and_fault_mapping testHash writeFaultEnv
      [Paste.mk 7 "abc" (testHash "p") "hello" 100 100]
      (PasteUpdate.mk "abc" "x" "p") (PasteDelete.mk "abc" "p")).2.2.2
     (Paste.mk 7 "abc" (testHash "p") "hello" 100 100) rfl rfl (by decide) (by decide),
   ((notfound_and_fault_mapping testHash defaultEnv []
      (PasteUpdate.mk "abc" "x" "p") (PasteDelete.mk "abc" "p")).1 rfl).1.mpr rfl⟩

/-- Helper: mapping a function that fixes every record whose url differs
from `url` leaves a table without `url` unchanged. -/
theorem map_eq_self_of_find?_none (db : DbState) (url : String)
    (g : Paste → Paste) (hg : ∀ q, (q.url == url) = false → g q = q)
    (h : db.find? (fun q => q.url == url) = none) : db.map g = db := by
  have hall := List.find?_eq_none.mp h
  calc db.map g = db.map id := by
        apply List.map_congr_left
        intro a ha
        have : ¬ (a.url == url) = true := hall a ha
        exact hg a (by simpa using this)
    _ = db := List.map_id db

/-- Environment whose clock reads a later instant than `defaultEnv`. -/
def laterEnv : Env := { defaultEnv with now := 200 }

/-- C9: every update (here, under the second environment) preserves the
`id` and `date_published` of every stored record, and a create-then-
update round trip with a non-decreasing clock retrieves the new content
with the original `date_published` and a `date_edited` at or after it. -/
theorem update_frame_and_roundtrip
    (hash : String → String) (env env2 : Env) (fuel : Nat) (db : DbState)
    (p : PasteCreate) (c2 : String)
    (hrf : env.readFault = false) (hwf : env.writeFault = false)
    (hrf2 : env2.readFault = false) (hwf2 : env2.writeFault = false)
    (hurl : p.url.isEmpty = false)
    (hfresh : db.find? (fun q => q.url == p.url) = none)
    (hlen : byteLen p.url ≤ 250)
    (hsafe : is_url_safe p.url = true)
    (hcinv : contentInvalid p.content = false)
    (hc2 : contentInvalid c2 = false)
    (hnow : env.now ≤ env2.now) :
    (∀ (db0 : DbState) (w : PasteUpdate),
      (PasteManager.update_paste hash env2 db0 w).2.map (fun q => (q.id, q.date_published)) =
        db0.map (fun q => (q.id, q.date_published))) ∧
    ∃ db2 db3,
      PasteManager.create_paste hash env fuel db p =
        (.ok (p.url, effectivePassword hash env p), db2) ∧
      PasteManager.update_paste hash env2 db2
          (PasteUpdate.mk p.url c2 (effectivePassword hash env p)) = (.ok (), db3) ∧
      PasteManager.get_paste_by_url env2 db3 p.url =
        .ok (PasteReturn.mk p.url c2 env.now env2.now) ∧
      env.now ≤ env2.now := by
  constructor
  · intro db0 w
    unfold PasteManager.update_paste
    cases hr : database.retrieve_paste env2 db0 w.url with
    | error e => simp
    | ok rec =>
      by_cases hpw : hash w.password ≠ rec.password_hash
      · simp [hpw]
      · cases hc : contentInvalid w.content with
        | true => simp [hpw, hc]
        | false =>
          unfold database.update_paste
          cases hwfb : env2.writeFault with
          | true => simp [hpw, hc, hwfb]
          | false =>
            simp only [hpw, hc, hwfb]
            simp [List.map_map]
            intro a ha
            by_cases hau : a.url = w.url
            · simp [hau]
            · simp [hau]
  · have hcreate := create_paste_valid_eq hash env fuel db p hrf hwf hurl hfresh hlen hsafe hcinv
    set pw := effectivePassword hash env p with hpw
    set ins := Paste.mk env.freshId p.url (hash pw) p.content env.now env.now with hins
    have hfind2 : (db ++ [ins]).find? (fun q => q.url == p.url) = some ins := by
      simp [List.find?_append, hfresh, hins]
    have hret2 : database.retrieve_paste env2 (db ++ [ins]) p.url = .ok ins := by
      simp [database.retrieve_paste, hrf2, hfind2]
    refine ⟨db ++ [ins], db ++ [Paste.mk env.freshId p.url (hash pw) c2 env.now env2.now],
      hcreate, ?_, ?_, hnow⟩
    · have hmap : (db ++ [ins]).map
          (fun q => if q.url == p.url then Paste.mk q.id p.url (hash pw) c2 q.date_published env2.now else q) =
          db ++ [Paste.mk env.freshId p.url (hash pw) c2 env.now env2.now] := by
        rw [List.map_append]
        rw [map_eq_self_of_find?_none db p.url _ (fun q hq => by simp_all) hfresh]
        simp [hins]
      simp only [PasteManager.update_paste, hret2, hc2, database.update_paste, hwf2]
      simp only [hins, ne_eq, not_true_eq_false, if_false, Bool.false_eq_true, ite_false]
      simp [hmap]
      exact map_eq_self_of_find?_none db p.url _ (fun q hq => if_neg (by simpa using hq)) hfresh
    · simp [PasteManager.get_paste_by_url, database.retrieve_paste, hrf2,
        List.find?_append, hfresh]

/-- Witness for C9: create at time 100, update at time 200; the view
keeps `date_published` 100 and gets `date_edited` 200. -/
theorem update_frame_and_roundtrip_witness :
    ((PasteManager.update_paste testHash laterEnv
        [Paste.mk 3 "keep" (testHash "k") "zzz" 50 60]
        (PasteUpdate.mk "none" "x" "p")).2.map (fun q => (q.id, q.date_published)) =
      [Paste.mk 3 "keep" (testHash "k") "zzz" 50 60].map (fun q => (q.id, q.date_published))) ∧
    ∃ db2 db3,
      PasteManager.create_paste testHash defaultEnv 1 [] (PasteCreate.mk "abc" "hello" "p") =
        (.ok ("abc", effectivePassword testHash defaultEnv (PasteCreate.mk "abc" "hello" "p")),
         db2) ∧
      PasteManager.update_paste testHash laterEnv db2
          (PasteUpdate.mk "abc" "bye"
            (effectivePassword testHash defaultEnv (PasteCreate.mk "abc" "hello" "p"))) =
        (.ok (), db3) ∧
      PasteManager.get_paste_by_url laterEnv db3 "abc" =
        .ok (PasteReturn.mk "abc" "bye" 100 200) ∧
      (100 : Int) ≤ 200 :=
  ⟨(update_frame_and_roundtrip testHash defaultEnv laterEnv 1 []
      (PasteCreate.mk "abc" "hello" "p") "bye"
      rfl rfl rfl rfl (by decide) rfl (by decide) (by decide) (by decide) (by decide)
      (by decide)).1
    [Paste.mk 3 "keep" (testHash "k") "zzz" 50 60] (PasteUpdate.mk "none" "x" "p"),
   (update_frame_and_roundtrip testHash defaultEnv laterEnv 1 []
      (PasteCreate.mk "abc" "hello" "p") "bye"
      rfl rfl rfl rfl (by decide) rfl (by decide) (by decide) (by decide) (by decide)
      (by decide)).2⟩

/-- C10: the plaintext password returned by a successful create — whether
supplied by the caller or generated as a default — always authenticates a
later update or delete of that url: the stored `password_hash` is the
digest of exactly that plaintext, so neither operation can fail with
`PasswordIncorrect` on a fault-free read. -/
theorem returned_password_authenticates
    (hash : String → String) (env env2 : Env) (fuel : Nat) (db db2 : DbState)
    (p : PasteCreate) (url pwd : String)
    (hrf : env.readFault = false) (hrf2 : env2.readFault = false)
    (hcreate : PasteManager.create_paste hash env fuel db p = (.ok (url, pwd), db2)) :
    (PasteManager.delete_paste hash env2 db2 (PasteDelete.mk url pwd)).1 ≠
      .error .PasswordIncorrect ∧
    ∀ c, (PasteManager.update_paste hash env2 db2 (PasteUpdate.mk url c pwd)).1 ≠
      .error .PasswordIncorrect := by
  unfold PasteManager.create_paste at hcreate
  cases hres : PasteManager.resolveUrl hash env fuel db p with
  | none => rw [hres] at hcreate; simp at hcreate
  | some u =>
    rw [hres] at hcreate
    by_cases hex : exceptIsOk (database.retrieve_paste env db u) = true
    · simp [hex] at hcreate
    · simp only [hex, Bool.false_eq_true, if_false, ite_false] at hcreate
      have hfind : db.find? (fun q => q.url == u) = none := by
        cases hf : db.find? (fun q => q.url == u) with
        | none => rfl
        | some r => simp [database.retrieve_paste, hrf, hf, exceptIsOk] at hex
      by_cases hl : byteLen u > 250
      · simp [hl] at hcreate
      · by_cases hs : is_url_safe u
        · by_cases hc : contentInvalid p.content = true
          · simp [hl, hs, hc] at hcreate
          · cases hwf : env.writeFault with
            | true =>
              simp [hl, hs, hc, database.insert_paste, hwf] at hcreate
            | false =>
              simp [hl, hs, hc, database.insert_paste, hwf] at hcreate
              obtain ⟨⟨hu, hpwd⟩, hdb⟩ := hcreate
              subst hu
              subst hdb
              have hfind2 : (db ++ [Paste.mk env.freshId u
                  (hash (if p.password.isEmpty = true then (random_string hash env.passwordSeed).take 10 else p.password))
                  p.content env.now env.now]).find? (fun q => q.url == u) =
                  some (Paste.mk env.freshId u (hash pwd) p.content env.now env.now) := by
                rw [List.find?_append, hfind, hpwd]
                simp
              have hret2 : database.retrieve_paste env2 (db ++ [Paste.mk env.freshId u
                  (hash (if p.password.isEmpty = true then (random_string hash env.passwordSeed).take 10 else p.password))
                  p.content env.now env.now]) u =
                  .ok (Paste.mk env.freshId u (hash pwd) p.content env.now env.now) := by
                simp [database.retrieve_paste, hrf2, hfind2]
              constructor
              · simp only [PasteManager.delete_paste, hret2]
                cases hwf2 : env2.writeFault with
                | true => simp [database.delete_paste, hwf2]
                | false => simp [database.delete_paste, hwf2]
              · intro c
                simp only [PasteManager.update_paste, hret2]
                cases hc2 : contentInvalid c with
                | true => simp [hc2]
                | false =>
                  cases hwf2 : env2.writeFault with
                  | true => simp [hc2, database.update_paste, hwf2]
                  | false => simp [hc2, database.update_paste, hwf2]
        · simp [hl, hs] at hcreate

/-- Witness for C10 on the all-generated path: create with empty url and
empty password yields url `"h00000000"` and password `"h00000001"`, and
neither delete nor update presenting that pair is rejected as
`PasswordIncorrect`. -/
theorem returned_password_authenticates_witness :
    (PasteManager.delete_paste testHash defaultEnv
        [Paste.mk 7 "h00000000" (testHash "h00000001") "hello" 100 100]
        (PasteDelete.mk "h00000000" "h00000001")).1 ≠ .error .PasswordIncorrect ∧
    (PasteManager.update_paste testHash defaultEnv
        [Paste.mk 7 "h00000000" (testHash "h00000001") "hello" 100 100]
        (PasteUpdate.mk "h00000000" "bye" "h00000001")).1 ≠ .error .PasswordIncorrect :=
  ⟨(returned_password_authenticates testHash defaultEnv defaultEnv 1 []
      [Paste.mk 7 "h00000000" (testHash "h00000001") "hello" 100 100]
      (PasteCreate.mk "" "hello" "") "h00000000" "h00000001" rfl rfl (by decide)).1,
   (returned_password_authenticates testHash defaultEnv defaultEnv 1 []
      [Paste.mk 7 "h00000000" (testHash "h00000001") "hello" 100 100]
      (PasteCreate.mk "" "hello" "") "h00000000" "h00000001" rfl rfl (by decide)).2 "bye"⟩
